import Mathlib

/-!
Shallow embedding of the live-position-relay core of `src/main.py`
(TelegramAprsBot).  Python floats are modelled as rationals (`ℚ`),
UTC wall-clock timestamps as integer seconds (`Int`), and the global
session dictionary `active_sessions` as a list of sessions keyed by
their `user_id` field.  Fallible collaborators (database lookups, the
APRS socket) are passed in as explicit `Option`/`Bool` oracles.
-/

namespace AprsBot

/-- `LiveLocationSession` dataclass (src/main.py lines 49-71).  Note the
dataclass has exactly these eight fields; in particular it has no icon
field. -/
structure LiveLocationSession where
  user_id : Int
  chat_id : Int
  callsign : String
  ssid : String
  comment : String
  next_update : Int
  end_sharing : Int
  start_message : Int
deriving DecidableEq, Repr

/-- `UserParameters` dataclass (src/main.py lines 73-95): the APRS
configuration row loaded from the `users` table. -/
structure UserParameters where
  user_id : Int
  aprs_callsign : String
  aprs_comment : String
  aprs_ssid : String
  aprs_icon : String
  update_interval : Int
  username : String
deriving DecidableEq, Repr

/-- The session table: the values of the `active_sessions` dict.  The
dict is keyed by `user_id` and the code always stores a session under
its own `user_id`, so the key is recoverable from the value. -/
abbrev SessionTable := List LiveLocationSession

/-- `active_sessions[user_id] = session`: dict assignment, replacing any
entry stored under the same key. -/
def tableSet (t : SessionTable) (s : LiveLocationSession) : SessionTable :=
  (t.filter (fun b => b.user_id ≠ s.user_id)) ++ [s]

/-- `del active_sessions[user_id]`: dict deletion by key. -/
def tableDel (t : SessionTable) (uid : Int) : SessionTable :=
  t.filter (fun b => b.user_id ≠ uid)

/-- Membership of a user in the table (`user_id == beacon.user_id` scan
used by the Python loops). -/
def tableHas (t : SessionTable) (uid : Int) : Bool :=
  t.any (fun b => b.user_id == uid)

/-! ## Coordinate codec: `decimal_to_aprs` (src/main.py lines 1040-1071) -/

/-- The decimal digit character for `n % 10`. -/
def digitChar (n : Nat) : Char := Char.ofNat (48 + n % 10)

/-- Digit-list worker, structurally recursive on a fuel argument that
bounds the number of digits. -/
def decDigitsAux : Nat → Nat → List Char
  | 0, _ => []
  | fuel + 1, n =>
    if n < 10 then [digitChar n]
    else decDigitsAux fuel (n / 10) ++ [digitChar (n % 10)]

/-- Decimal digit list of a natural number, most significant first
(the digits of Python's `str(n)` / `%d`).  `n + 1` fuel always
suffices since a number has at most `n + 1` digits. -/
def decDigits (n : Nat) : List Char := decDigitsAux (n + 1) n

/-- Zero-pad a digit list on the left to width `w`: Python's `%0wd`. -/
def padLeft (w : Nat) (ds : List Char) : List Char :=
  List.replicate (w - ds.length) '0' ++ ds

/-- `int(abs(x))` on a rational: truncation of the absolute value. -/
def truncAbs (q : ℚ) : Nat := (|q|.num / (|q|.den : Int)).toNat

/-- Fixed-point rendering of a nonnegative rational with exactly two
fractional digits and the integer part zero-padded to two digits:
Python's `f"{m:05.2f}"` (idealised: the float is a rational and ties
round up). -/
def fmt0502 (m : ℚ) : List Char :=
  padLeft 2 (decDigits ((Int.floor (m * 100 + 1/2)).toNat / 100)) ++ ['.'] ++
    padLeft 2 (decDigits ((Int.floor (m * 100 + 1/2)).toNat % 100))

/-- `decimal_to_aprs(latitude, longitude)`: converts decimal degrees to
the APRS `DDMM.MM[N|S]` / `DDDMM.MM[E|W]` tokens. -/
def decimal_to_aprs (latitude longitude : ℚ) : String × String :=
  let lat_deg := truncAbs latitude
  let lat_min := (|latitude| - (lat_deg : ℚ)) * 60
  let lat_dir : Char := if latitude ≥ 0 then 'N' else 'S'
  let lon_deg := truncAbs longitude
  let lon_min := (|longitude| - (lon_deg : ℚ)) * 60
  let lon_dir : Char := if longitude ≥ 0 then 'E' else 'W'
  let lat_aprs := String.mk (padLeft 2 (decDigits lat_deg) ++ fmt0502 lat_min ++ [lat_dir])
  let lon_aprs := String.mk (padLeft 3 (decDigits lon_deg) ++ fmt0502 lon_min ++ [lon_dir])
  (lat_aprs, lon_aprs)

/-! ## Pattern checkers for the APRS position tokens (spec §8 regexes) -/

/-- `^\d{2}\d{2}\.\d{2}[NS]$`: the latitude token shape. -/
def latPattern (s : String) : Bool :=
  match s.toList with
  | [a, b, c, d, e, f, g, h] =>
    a.isDigit && b.isDigit && c.isDigit && d.isDigit && e == '.' &&
      f.isDigit && g.isDigit && (h == 'N' || h == 'S')
  | _ => false

/-- `^\d{3}\d{2}\.\d{2}[EW]$`: the longitude token shape. -/
def lonPattern (s : String) : Bool :=
  match s.toList with
  | [a, b, c, d, e, f, g, h, i] =>
    a.isDigit && b.isDigit && c.isDigit && d.isDigit && e.isDigit && f == '.' &&
      g.isDigit && h.isDigit && (i == 'E' || i == 'W')
  | _ => false

/-! ## Events and collaborator rows -/

/-- The relevant parts of a Telegram location update: sender id, chat id,
coordinates, optional live period (seconds), message timestamp (UTC
seconds). -/
structure LocationEvent where
  user_id : Int
  chat_id : Int
  latitude : ℚ
  longitude : ℚ
  live_period : Option Int
  timestamp : Int
deriving DecidableEq, Repr

/-- The row fetched by `handle_live_location`'s query
`SELECT user_id, user_callsign, user_comment, user_ssid, aprs_interval`
(src/main.py lines 142-151).  Note it does not fetch the icon. -/
structure UserConfigRow where
  user_id : Int
  user_callsign : String
  user_comment : String
  user_ssid : String
  aprs_interval : Int
deriving DecidableEq, Repr

/-- Projection of a full `users` row to the columns read by
`handle_live_location`: both queries read the same database row. -/
def UserParameters.configRow (p : UserParameters) : UserConfigRow :=
  { user_id := p.user_id
    user_callsign := p.aprs_callsign
    user_comment := p.aprs_comment
    user_ssid := p.aprs_ssid
    aprs_interval := p.update_interval }

/-! ## `stop_live_tracking` (src/main.py lines 206-226) -/

/-- `stop_live_tracking(user_id)`: scans the session values; every match
triggers `del active_sessions[user_id]` (the first succeeds, later ones
raise `KeyError`, which is caught), so the net effect is: report whether
a session existed and drop every session of that user. -/
def stop_live_tracking (t : SessionTable) (uid : Int) : Bool × SessionTable :=
  (tableHas t uid, tableDel t uid)

/-! ## `handle_live_location` (src/main.py lines 120-203) -/

/-- Outcome of processing a live location event. -/
inductive LiveOutcome
  | unauthorized
  | missingConfig
  | throttled
  | accepted (fresh : Bool)
deriving DecidableEq, Repr

/-- Observable result of one `handle_live_location` call: the outcome,
the session table afterwards, the APRS transmissions performed (profile
used plus coordinates), the Telegram notices sent `(target chat, tag)`,
and whether the call ended by raising (a `send_position` failure is not
caught in this handler). -/
structure LiveResult where
  outcome : LiveOutcome
  table : SessionTable
  sends : List (UserParameters × ℚ × ℚ)
  notices : List (Int × String)
  raised : Bool
deriving DecidableEq, Repr

/-- `handle_live_location`, for an event carrying `live_period` seconds.
Oracles: `approved` is `is_user_approved`, `user_config` the first
database row, `aprs_parameters` the row re-read by
`load_aprs_parameters_for_user` just before sending, `sendOk` whether
`send_position` returns normally, `initial_msg_id` the id of the
"started" Telegram message, `now` the value of `datetime.now(UTC)`. -/
def handle_live_location (approved : Bool) (user_config : Option UserConfigRow)
    (aprs_parameters : Option UserParameters) (sendOk : Bool) (initial_msg_id : Int)
    (now : Int) (t : SessionTable) (ev : LocationEvent) (live_period : Int) : LiveResult :=
  if ¬ approved then
    { outcome := .unauthorized, table := t, sends := [], notices := [(ev.chat_id, "unauthorized")],
      raised := false }
  else
    match user_config with
    | none =>
      { outcome := .missingConfig, table := t, sends := [],
        notices := [(ev.chat_id, "missing-config")], raised := false }
    | some cfg =>
      let new_session := ¬ tableHas t cfg.user_id
      if t.any (fun b => b.user_id == cfg.user_id && decide (now < b.next_update)) then
        { outcome := .throttled, table := t, sends := [], notices := [], raised := false }
      else
        let session : LiveLocationSession :=
          { user_id := cfg.user_id
            chat_id := ev.chat_id
            callsign := cfg.user_callsign
            ssid := cfg.user_ssid
            comment := cfg.user_comment
            next_update := now + cfg.aprs_interval
            end_sharing := ev.timestamp + live_period
            start_message := -1 }
        let t1 := tableSet t session
        let t2 :=
          if new_session then tableSet t1 { session with start_message := initial_msg_id }
          else t1
        let notices : List (Int × String) :=
          if new_session then [(cfg.user_id, "started")] else []
        match aprs_parameters with
        | none =>
          { outcome := .accepted new_session, table := t2, sends := [], notices := notices,
            raised := false }
        | some p =>
          if sendOk then
            { outcome := .accepted new_session, table := t2,
              sends := [(p, ev.latitude, ev.longitude)], notices := notices, raised := false }
          else
            { outcome := .accepted new_session, table := t2, sends := [], notices := notices,
              raised := true }

/-! ## `msg_location`, non-live branch (src/main.py lines 699-754) -/

/-- Observable result of the one-shot branch of `msg_location`. -/
structure OneShotResult where
  table : SessionTable
  sends : List (UserParameters × ℚ × ℚ)
  notices : List (Int × String)
deriving DecidableEq, Repr

/-- The one-shot branch of `msg_location` (event without a live period):
optionally send a single position, then stop any live session of the
user and notify "Beaconing was stopped" if one was removed.
`has_message` is `update.message is not None`. -/
def msg_location_oneshot (approved : Bool) (aprs_parameters : Option UserParameters)
    (sendOk : Bool) (has_message : Bool) (t : SessionTable) (ev : LocationEvent) :
    OneShotResult :=
  if ¬ approved then
    { table := t, sends := [], notices := [(ev.user_id, "unauthorized")] }
  else
    let sent : List (UserParameters × ℚ × ℚ) × List (Int × String) :=
      match aprs_parameters, has_message with
      | some p, true =>
        if sendOk then
          ([(p, ev.latitude, ev.longitude)], [(ev.chat_id, "position-sent")])
        else
          ([], [(ev.chat_id, "send-error")])
      | _, _ =>
        if has_message then ([], [(ev.chat_id, "config-invalid")]) else ([], [])
    let stopped := stop_live_tracking t ev.user_id
    { table := stopped.2
      sends := sent.1
      notices :=
        sent.2 ++ (if stopped.1 then [(ev.user_id, "beaconing-stopped")] else []) }

/-! ## `send_position` (src/main.py lines 1074-1154) -/

/-- The transmitter's global state: whether `aprs_socket` exists and is
marked `_connected`, the `aprs_socket_busy` flag, and the global
`aprs_user` (`none` models Python `None`). -/
structure AprsState where
  connected : Bool
  busy : Bool
  aprs_user : Option String
deriving DecidableEq, Repr

/-- Result of one `send_position` call: `ok` is whether the call
returned normally (`false` means it raised `"Cannot send APRS packet"`),
plus the final transmitter state and the lines written on the wire. -/
structure SendResult where
  ok : Bool
  state : AprsState
  wire : List String
deriving DecidableEq, Repr

/-- Python f-string rendering of the `aprs_user` global inside the
digipeater path: an unset (`None`) login renders as the text `None`. -/
def renderLogin : Option String → String
  | none => "None"
  | some u => u

/-- The login/status line sent right after connecting, always with the
literal `N0CALL` call. -/
def status_line : String := "N0CALL>APRS,TCPIP*:>status text"

/-- The position packet assembled by `send_position`: the `from`, `path`
and `msg` fields of the message dict, joined as
`f"{message[from]}>{message[path]}:{message[msg]}"`. -/
def aprs_position_packet (login : Option String) (d : UserParameters) (lat lon : ℚ) :
    String :=
  let tokens := decimal_to_aprs lat lon
  let from_field := d.aprs_callsign ++ "-" ++ d.aprs_ssid
  let path_field := "APRS,TCPIP*,qAC," ++ renderLogin login
  let msg_field := "=" ++ tokens.1 ++ "/" ++ tokens.2 ++ d.aprs_icon ++ d.aprs_comment
  from_field ++ ">" ++ path_field ++ ":" ++ msg_field

/-- `send_position`.  The busy-flag spin-wait admits the call once the
flag is clear; the flag is then held for the duration of the call and
cleared in the `finally` block on every exit path.  `env_user` is the
`APRS_USER` environment variable, and `connectOk`, `statusOk`,
`packetOk` tell whether the connect call, the status-line write and the
position-packet write succeed. -/
def send_position (env_user : Option String) (connectOk statusOk packetOk : Bool)
    (st : AprsState) (d : UserParameters) (lat lon : ℚ) : SendResult :=
  if ¬ st.connected then
    let st1 : AprsState := { st with aprs_user := env_user }
    if ¬ connectOk then
      { ok := false, state := { st1 with busy := false, connected := false }, wire := [] }
    else if ¬ statusOk then
      { ok := false, state := { st1 with busy := false, connected := true }, wire := [] }
    else
      let st2 : AprsState := { st1 with connected := true }
      let packet := aprs_position_packet st2.aprs_user d lat lon
      if ¬ packetOk then
        { ok := false, state := { st2 with busy := false }, wire := [status_line] }
      else
        { ok := true, state := { st2 with busy := false }, wire := [status_line, packet] }
  else
    let packet := aprs_position_packet st.aprs_user d lat lon
    if ¬ packetOk then
      { ok := false, state := { st with busy := false }, wire := [] }
    else
      { ok := true, state := { st with busy := false }, wire := [packet] }

/-! ## `stop_old_beacons` (src/main.py lines 1265-1296) -/

/-- One pass of the `for beacon in list(active_sessions.values())` loop
inside the sweeper's `try`.  `sendRaises uid` tells whether the
"sharing ended" `sendMessage` for that user raises; a raise is caught by
the `except` around the whole loop, so it aborts the remaining
iterations of this cycle (third component `true`). -/
def stop_old_beacons_go (sendRaises : Int → Bool) (now : Int) :
    List LiveLocationSession → SessionTable → List (Int × String) →
    SessionTable × List (Int × String) × Bool
  | [], t, acc => (t, acc, false)
  | b :: rest, t, acc =>
    if now > b.end_sharing then
      let t1 := (stop_live_tracking t b.user_id).2
      if sendRaises b.user_id then
        (t1, acc, true)
      else
        stop_old_beacons_go sendRaises now rest t1 (acc ++ [(b.user_id, "ended")])
    else
      stop_old_beacons_go sendRaises now rest t acc

/-- One full sweeper cycle: snapshot the table, process each expired
session (stop it, then notify `chat_id=beacon.user_id`), stopping early
if a notification raises.  Returns the table afterwards, the "ended"
notices `(target chat, tag)` and whether the cycle was aborted by an
exception.  The enclosing `while True` loop then sleeps 59 seconds and
runs the next cycle regardless. -/
def stop_old_beacons_cycle (sendRaises : Int → Bool) (now : Int) (t : SessionTable) :
    SessionTable × List (Int × String) × Bool :=
  stop_old_beacons_go sendRaises now t t []

/-! ## Helper lemmas about the session table -/

unseal Rat.mul Rat.add Rat.sub Rat.inv

theorem tableHas_tableDel (t : SessionTable) (uid : Int) :
    tableHas (tableDel t uid) uid = false := by
  induction t with
  | nil => rfl
  | cons b rest ih =>
    by_cases h : b.user_id = uid <;> simpa [tableHas, tableDel, h] using ih

theorem tableHas_append (t₁ t₂ : SessionTable) (uid : Int) :
    tableHas (t₁ ++ t₂) uid = (tableHas t₁ uid || tableHas t₂ uid) :=
  List.any_append

theorem tableSet_tableSet (t : SessionTable) (s s' : LiveLocationSession)
    (h : s'.user_id = s.user_id) :
    tableSet (tableSet t s) s' = tableDel t s.user_id ++ [s'] := by
  simp only [tableSet, tableDel, h, List.filter_append, List.filter_filter, List.filter_cons,
    List.filter_nil]
  simp

/-- The table produced by an accepted (non-throttled) live update: the
entry for the user is replaced wholesale, other entries are kept. -/
theorem handle_live_location_table (cfg : UserConfigRow) (params : Option UserParameters)
    (sendOk : Bool) (msgId now : Int) (t : SessionTable) (ev : LocationEvent) (lp : Int)
    (hAny : (t.any fun b => b.user_id == cfg.user_id && decide (now < b.next_update)) = false) :
    (handle_live_location true (some cfg) params sendOk msgId now t ev lp).table =
      tableDel t cfg.user_id ++
        [{ user_id := cfg.user_id
           chat_id := ev.chat_id
           callsign := cfg.user_callsign
           ssid := cfg.user_ssid
           comment := cfg.user_comment
           next_update := now + cfg.aprs_interval
           end_sharing := ev.timestamp + lp
           start_message := if tableHas t cfg.user_id then -1 else msgId }] := by
  by_cases hFresh : tableHas t cfg.user_id <;>
    rcases params with _ | p <;>
      cases sendOk <;>
        simp [handle_live_location, hAny, hFresh, tableSet_tableSet, tableSet, tableDel]

/-! ## Claims -/

/-- C2: for a live location event of a user with an existing session and
`now < session.next_update`, `handle_live_location` is throttled: it
performs no transmission, sends no notice, does not raise, and leaves
the session table (hence the session's `next_update` and `end_sharing`)
unchanged; replaying the same event on the resulting state is throttled
again. -/
theorem C2_throttled_is_noop (cfg : UserConfigRow) (params : Option UserParameters)
    (sendOk : Bool) (msgId now : Int) (t : SessionTable) (ev : LocationEvent) (lp : Int)
    (s : LiveLocationSession) (hs : s ∈ t) (hid : s.user_id = cfg.user_id)
    (hwin : now < s.next_update) :
    handle_live_location true (some cfg) params sendOk msgId now t ev lp =
      { outcome := .throttled, table := t, sends := [], notices := [], raised := false } ∧
    handle_live_location true (some cfg) params sendOk msgId now
        (handle_live_location true (some cfg) params sendOk msgId now t ev lp).table ev lp =
      { outcome := .throttled, table := t, sends := [], notices := [], raised := false } := by
  have hAny : (t.any fun b => b.user_id == cfg.user_id && decide (now < b.next_update)) = true := by
    refine List.any_eq_true.mpr ⟨s, hs, ?_⟩
    simp [hid, hwin]
  have h1 : handle_live_location true (some cfg) params sendOk msgId now t ev lp =
      { outcome := .throttled, table := t, sends := [], notices := [], raised := false } := by
    simp [handle_live_location, hAny]
  exact ⟨h1, by rw [h1]; exact h1⟩

/-- Witness for C2 at a concrete throttled event. -/
theorem C2_throttled_is_noop_witness :
    handle_live_location true (some ⟨1, "AA1AA", "hi", "7", 60⟩) none true 5 100
        [⟨1, 2, "AA1AA", "7", "hi", 200, 300, -1⟩] ⟨1, 2, 0, 0, some 600, 90⟩ 600 =
      { outcome := .throttled, table := [⟨1, 2, "AA1AA", "7", "hi", 200, 300, -1⟩],
        sends := [], notices := [], raised := false } ∧
    handle_live_location true (some ⟨1, "AA1AA", "hi", "7", 60⟩) none true 5 100
        (handle_live_location true (some ⟨1, "AA1AA", "hi", "7", 60⟩) none true 5 100
          [⟨1, 2, "AA1AA", "7", "hi", 200, 300, -1⟩] ⟨1, 2, 0, 0, some 600, 90⟩ 600).table
        ⟨1, 2, 0, 0, some 600, 90⟩ 600 =
      { outcome := .throttled, table := [⟨1, 2, "AA1AA", "7", "hi", 200, 300, -1⟩],
        sends := [], notices := [], raised := false } :=
  C2_throttled_is_noop ⟨1, "AA1AA", "hi", "7", 60⟩ none true 5 100
    [⟨1, 2, "AA1AA", "7", "hi", 200, 300, -1⟩] ⟨1, 2, 0, 0, some 600, 90⟩ 600
    ⟨1, 2, "AA1AA", "7", "hi", 200, 300, -1⟩ (by decide) (by decide) (by decide)

/-- C7: on every exit path of `send_position` — successful write,
connect failure, status-line failure, or packet-write failure — the
`aprs_socket_busy` flag ends up `false`, and the call returns normally
exactly when no connect or write failure occurred (every failure is
surfaced by raising, none is swallowed). -/
theorem C7_busy_released_and_failures_surface (env : Option String)
    (connectOk statusOk packetOk : Bool) (st : AprsState) (d : UserParameters) (lat lon : ℚ) :
    (send_position env connectOk statusOk packetOk st d lat lon).state.busy = false ∧
    ((send_position env connectOk statusOk packetOk st d lat lon).ok = true ↔
      ((st.connected = true ∨ (connectOk = true ∧ statusOk = true)) ∧ packetOk = true)) := by
  rcases st with ⟨conn, busy, user⟩
  cases conn <;> cases connectOk <;> cases statusOk <;> cases packetOk <;>
    simp [send_position]

/-- C10: an accepted (non-throttled) live update stores the fresh
session, and the stored table does not depend on whether the subsequent
profile lookup for sending succeeds nor on whether the transmission
raises: the entry for the user is present in all cases, with the same
table in all cases. -/
theorem C10_send_failure_keeps_session (cfg : UserConfigRow) (params : Option UserParameters)
    (sendOk : Bool) (msgId now : Int) (t : SessionTable) (ev : LocationEvent) (lp : Int)
    (hGate : ∀ s ∈ t, s.user_id = cfg.user_id → s.next_update ≤ now) :
    tableHas (handle_live_location true (some cfg) params sendOk msgId now t ev lp).table
        cfg.user_id = true ∧
    (handle_live_location true (some cfg) params sendOk msgId now t ev lp).table =
      (handle_live_location true (some cfg) none true msgId now t ev lp).table := by
  have hAny : (t.any fun b => b.user_id == cfg.user_id && decide (now < b.next_update)) = false := by
    simp only [List.any_eq_false, Bool.and_eq_true, beq_iff_eq, decide_eq_true_eq, not_and,
      not_lt]
    exact fun b hb hId => hGate b hb hId
  rw [handle_live_location_table cfg params sendOk msgId now t ev lp hAny,
    handle_live_location_table cfg none true msgId now t ev lp hAny]
  refine ⟨?_, rfl⟩
  rw [tableHas_append]
  simp [tableHas]

/-- Witness for C10 with a failing transmission on a user who already
has a session whose throttle window has elapsed. -/
theorem C10_send_failure_keeps_session_witness :
    tableHas (handle_live_location true (some ⟨1, "AA1AA", "hi", "7", 60⟩)
        (some ⟨1, "AA1AA", "hi", "7", "/", 60, "u"⟩) false 5 100
        [⟨1, 2, "AA1AA", "7", "hi", 90, 300, -1⟩] ⟨1, 2, 0, 0, some 600, 95⟩ 600).table 1 =
      true ∧
    (handle_live_location true (some ⟨1, "AA1AA", "hi", "7", 60⟩)
        (some ⟨1, "AA1AA", "hi", "7", "/", 60, "u"⟩) false 5 100
        [⟨1, 2, "AA1AA", "7", "hi", 90, 300, -1⟩] ⟨1, 2, 0, 0, some 600, 95⟩ 600).table =
      (handle_live_location true (some ⟨1, "AA1AA", "hi", "7", 60⟩) none true 5 100
        [⟨1, 2, "AA1AA", "7", "hi", 90, 300, -1⟩] ⟨1, 2, 0, 0, some 600, 95⟩ 600).table :=
  C10_send_failure_keeps_session ⟨1, "AA1AA", "hi", "7", 60⟩
    (some ⟨1, "AA1AA", "hi", "7", "/", 60, "u"⟩) false 5 100
    [⟨1, 2, "AA1AA", "7", "hi", 90, 300, -1⟩] ⟨1, 2, 0, 0, some 600, 95⟩ 600 (by decide)

/-- C4: a location event without a live period from a user with an
active live session removes that user's session — a later direct
`stop_live_tracking` call reports nothing to remove — and sends the user
a "beaconing stopped" notification.  This holds whatever the profile
lookup, the transmission outcome and the reply-message availability. -/
theorem C4_oneshot_stops_live_session (params : Option UserParameters)
    (sendOk has_message : Bool) (t : SessionTable) (ev : LocationEvent)
    (hactive : tableHas t ev.user_id = true) :
    tableHas (msg_location_oneshot true params sendOk has_message t ev).table ev.user_id
        = false ∧
    (stop_live_tracking (msg_location_oneshot true params sendOk has_message t ev).table
        ev.user_id).1 = false ∧
    (ev.user_id, "beaconing-stopped") ∈
      (msg_location_oneshot true params sendOk has_message t ev).notices := by
  have htab : (msg_location_oneshot true params sendOk has_message t ev).table =
      tableDel t ev.user_id := by
    rcases params with _ | p <;> cases sendOk <;> cases has_message <;>
      simp [msg_location_oneshot, stop_live_tracking]
  have hdel := tableHas_tableDel t ev.user_id
  refine ⟨by rw [htab]; exact hdel, by rw [htab]; exact hdel, ?_⟩
  rcases params with _ | p <;> cases sendOk <;> cases has_message <;>
    simp [msg_location_oneshot, stop_live_tracking, hactive]

/-- Witness for C4: a one-shot report with a failing profile lookup
still stops the active session and notifies the user. -/
theorem C4_oneshot_stops_live_session_witness :
    tableHas (msg_location_oneshot true none true true
        [⟨1, 2, "AA1AA", "7", "hi", 200, 300, -1⟩] ⟨1, 2, 0, 0, none, 90⟩).table 1 = false ∧
    (stop_live_tracking (msg_location_oneshot true none true true
        [⟨1, 2, "AA1AA", "7", "hi", 200, 300, -1⟩] ⟨1, 2, 0, 0, none, 90⟩).table 1).1 = false ∧
    ((1 : Int), "beaconing-stopped") ∈
      (msg_location_oneshot true none true true
        [⟨1, 2, "AA1AA", "7", "hi", 200, 300, -1⟩] ⟨1, 2, 0, 0, none, 90⟩).notices :=
  C4_oneshot_stops_live_session none true true
    [⟨1, 2, "AA1AA", "7", "hi", 200, 300, -1⟩] ⟨1, 2, 0, 0, none, 90⟩ (by decide)

/-- C1: a live location event that passes the throttle gate (no session
for the user, or `now` at or past the session's `next_update`) replaces
the table entry for the user with a fresh session whose `next_update` is
`now + profile.interval` and whose `end_sharing` is
`event.timestamp + live_period`; consequently, when the previous session
was built from an earlier event (timestamp `ts₀`, live period
`lp₀ ≤ lp`), the new `end_sharing` is at or past the previous one. -/
theorem C1_accepted_update_replaces_session (cfg : UserConfigRow)
    (params : Option UserParameters) (sendOk : Bool) (msgId now : Int) (t : SessionTable)
    (ev : LocationEvent) (lp : Int)
    (hGate : ∀ s ∈ t, s.user_id = cfg.user_id → s.next_update ≤ now) :
    ∃ s : LiveLocationSession,
      (handle_live_location true (some cfg) params sendOk msgId now t ev lp).table =
        tableDel t cfg.user_id ++ [s] ∧
      s.user_id = cfg.user_id ∧
      s.next_update = now + cfg.aprs_interval ∧
      s.end_sharing = ev.timestamp + lp ∧
      ∀ old ∈ t, old.user_id = cfg.user_id →
        ∀ ts₀ lp₀ : Int, old.end_sharing = ts₀ + lp₀ → ts₀ ≤ ev.timestamp → lp₀ ≤ lp →
          old.end_sharing ≤ s.end_sharing := by
  have hAny : (t.any fun b => b.user_id == cfg.user_id && decide (now < b.next_update)) = false := by
    simp only [List.any_eq_false, Bool.and_eq_true, beq_iff_eq, decide_eq_true_eq, not_and,
      not_lt]
    exact fun b hb hId => hGate b hb hId
  refine ⟨_, handle_live_location_table cfg params sendOk msgId now t ev lp hAny, rfl, rfl,
    rfl, ?_⟩
  intro old _ _ ts₀ lp₀ hend hts hlp
  simp only [hend]
  omega

/-- Witness for C1: a refresh past the throttle window of a session that
was started by an earlier event with the same live period. -/
theorem C1_accepted_update_replaces_session_witness :
    ∃ s : LiveLocationSession,
      (handle_live_location true (some ⟨1, "AA1AA", "hi", "7", 60⟩) none true 5 100
          [⟨1, 2, "AA1AA", "7", "hi", 90, 630, -1⟩] ⟨1, 2, 0, 0, some 600, 95⟩ 600).table =
        tableDel [⟨1, 2, "AA1AA", "7", "hi", 90, 630, -1⟩] 1 ++ [s] ∧
      s.user_id = 1 ∧
      s.next_update = 100 + 60 ∧
      s.end_sharing = 95 + 600 ∧
      ∀ old ∈ [(⟨1, 2, "AA1AA", "7", "hi", 90, 630, -1⟩ : LiveLocationSession)],
        old.user_id = 1 →
        ∀ ts₀ lp₀ : Int, old.end_sharing = ts₀ + lp₀ → ts₀ ≤ 95 → lp₀ ≤ 600 →
          old.end_sharing ≤ s.end_sharing :=
  C1_accepted_update_replaces_session ⟨1, "AA1AA", "hi", "7", 60⟩ none true 5 100
    [⟨1, 2, "AA1AA", "7", "hi", 90, 630, -1⟩] ⟨1, 2, 0, 0, some 600, 95⟩ 600 (by decide)

/-- C9 counterexample: two user profiles that differ only in the icon
produce, for the same accepted live update, the same stored session but
different transmissions.  The transmitted identity is therefore not a
function of the stored session: `LiveLocationSession` does not carry the
icon, and the beacon is built from a fresh profile lookup instead of the
session's copied fields. -/
theorem C9_counterexample :
    (handle_live_location true (some (UserParameters.configRow ⟨1, "AA1AA", "hi", "7", "/", 60, "u"⟩))
        (some ⟨1, "AA1AA", "hi", "7", "/", 60, "u"⟩) true 5 100 []
        ⟨1, 2, 3, 4, some 600, 95⟩ 600).table =
      (handle_live_location true (some (UserParameters.configRow ⟨1, "AA1AA", "hi", "7", "$", 60, "u"⟩))
        (some ⟨1, "AA1AA", "hi", "7", "$", 60, "u"⟩) true 5 100 []
        ⟨1, 2, 3, 4, some 600, 95⟩ 600).table ∧
    (handle_live_location true (some (UserParameters.configRow ⟨1, "AA1AA", "hi", "7", "/", 60, "u"⟩))
        (some ⟨1, "AA1AA", "hi", "7", "/", 60, "u"⟩) true 5 100 []
        ⟨1, 2, 3, 4, some 600, 95⟩ 600).sends ≠
      (handle_live_location true (some (UserParameters.configRow ⟨1, "AA1AA", "hi", "7", "$", 60, "u"⟩))
        (some ⟨1, "AA1AA", "hi", "7", "$", 60, "u"⟩) true 5 100 []
        ⟨1, 2, 3, 4, some 600, 95⟩ 600).sends := by
  decide

/-- C9 (amended): the stored session copies the callsign, SSID and
comment (but no icon — the dataclass has no such field) from the user's
database row at session-start or refresh time, while the transmission of
the accepted update is built from the freshly re-read profile row
(including its icon), not from the session's copies. -/
theorem C9_session_copies_and_send_refetches (p : UserParameters) (msgId now : Int)
    (t : SessionTable) (ev : LocationEvent) (lp : Int)
    (hGate : ∀ s ∈ t, s.user_id = p.user_id → s.next_update ≤ now) :
    ∃ s : LiveLocationSession,
      (handle_live_location true (some p.configRow) (some p) true msgId now t ev lp).table =
        tableDel t p.user_id ++ [s] ∧
      s.callsign = p.aprs_callsign ∧
      s.ssid = p.aprs_ssid ∧
      s.comment = p.aprs_comment ∧
      (handle_live_location true (some p.configRow) (some p) true msgId now t ev lp).sends =
        [(p, ev.latitude, ev.longitude)] := by
  have hAny : (t.any fun b => b.user_id == p.configRow.user_id && decide (now < b.next_update))
      = false := by
    simp only [List.any_eq_false, Bool.and_eq_true, beq_iff_eq, decide_eq_true_eq, not_and,
      not_lt]
    exact fun b hb hId => hGate b hb hId
  refine ⟨_, handle_live_location_table p.configRow (some p) true msgId now t ev lp hAny,
    rfl, rfl, rfl, ?_⟩
  simp [handle_live_location, hAny]

/-- Witness for C9's amended statement at a concrete profile. -/
theorem C9_session_copies_and_send_refetches_witness :
    ∃ s : LiveLocationSession,
      (handle_live_location true
          (some (UserParameters.configRow ⟨1, "AA1AA", "hi", "7", "/", 60, "u"⟩))
          (some ⟨1, "AA1AA", "hi", "7", "/", 60, "u"⟩) true 5 100 []
          ⟨1, 2, 3, 4, some 600, 95⟩ 600).table =
        tableDel [] 1 ++ [s] ∧
      s.callsign = "AA1AA" ∧
      s.ssid = "7" ∧
      s.comment = "hi" ∧
      (handle_live_location true
          (some (UserParameters.configRow ⟨1, "AA1AA", "hi", "7", "/", 60, "u"⟩))
          (some ⟨1, "AA1AA", "hi", "7", "/", 60, "u"⟩) true 5 100 []
          ⟨1, 2, 3, 4, some 600, 95⟩ 600).sends =
        [(⟨1, "AA1AA", "hi", "7", "/", 60, "u"⟩, (3 : ℚ), (4 : ℚ))] :=
  C9_session_copies_and_send_refetches ⟨1, "AA1AA", "hi", "7", "/", 60, "u"⟩ 5 100 []
    ⟨1, 2, 3, 4, some 600, 95⟩ 600 (by decide)

/-! ## Helper lemmas about the sweeper -/

theorem tableHas_false_of_sublist {t' t : SessionTable} (h : List.Sublist t' t) {uid : Int}
    (hf : tableHas t uid = false) : tableHas t' uid = false := by
  simp only [tableHas, List.any_eq_false] at hf ⊢
  exact fun b hb => hf b (h.mem hb)

theorem go_table_sublist (f : Int → Bool) (now : Int) (snap : List LiveLocationSession)
    (tbl : SessionTable) (acc : List (Int × String)) :
    List.Sublist (stop_old_beacons_go f now snap tbl acc).1 tbl := by
  induction snap generalizing tbl acc with
  | nil => exact List.Sublist.refl tbl
  | cons b rest ih =>
    by_cases hb : now > b.end_sharing
    · by_cases hr : f b.user_id
      · simpa [stop_old_beacons_go, hb, hr, stop_live_tracking, tableDel] using
          List.filter_sublist tbl
      · simp only [stop_old_beacons_go, hb, hr, if_true, if_false, Bool.false_eq_true,
          stop_live_tracking]
        exact (ih _ _).trans (List.filter_sublist tbl)
    · simpa [stop_old_beacons_go, hb] using ih tbl acc

theorem go_preserves_absence (f : Int → Bool) (now : Int) (snap : List LiveLocationSession)
    (tbl : SessionTable) (acc : List (Int × String)) {uid : Int}
    (h : tableHas tbl uid = false) :
    tableHas (stop_old_beacons_go f now snap tbl acc).1 uid = false :=
  tableHas_false_of_sublist (go_table_sublist f now snap tbl acc) h

/-- A session processed by the sweeper loop is erased from the table:
if the loop reaches an expired session, the whole table is purged of its
user id, and that absence persists. -/
theorem go_removes_expired (now : Int) (snap : List LiveLocationSession)
    (tbl : SessionTable) (acc : List (Int × String)) (s : LiveLocationSession)
    (hs : s ∈ snap) (hexp : now > s.end_sharing) :
    tableHas (stop_old_beacons_go (fun _ => false) now snap tbl acc).1 s.user_id = false := by
  induction snap generalizing tbl acc with
  | nil => cases hs
  | cons b rest ih =>
    rcases List.mem_cons.mp hs with rfl | hs'
    · simp only [stop_old_beacons_go, hexp, if_true, stop_live_tracking]
      exact go_preserves_absence _ now rest _ _ (tableHas_tableDel tbl s.user_id)
    · by_cases hb : now > b.end_sharing <;>
        simp only [stop_old_beacons_go, hb, if_true, if_false, stop_live_tracking] <;>
        exact ih _ _ hs'

/-- Either a session survives a sweeper cycle, or its whole user id is
absent from the resulting table. -/
theorem go_mem_or_gone (f : Int → Bool) (now : Int) (snap : List LiveLocationSession)
    (tbl : SessionTable) (acc : List (Int × String)) (s : LiveLocationSession)
    (hs : s ∈ tbl) :
    s ∈ (stop_old_beacons_go f now snap tbl acc).1 ∨
      tableHas (stop_old_beacons_go f now snap tbl acc).1 s.user_id = false := by
  induction snap generalizing tbl acc with
  | nil => exact Or.inl hs
  | cons b rest ih =>
    by_cases hb : now > b.end_sharing
    · by_cases hcollide : b.user_id = s.user_id
      · have habs : tableHas (tableDel tbl b.user_id) s.user_id = false := by
          rw [hcollide]; exact tableHas_tableDel tbl s.user_id
        by_cases hr : f b.user_id
        · right
          simpa [stop_old_beacons_go, hb, hr, stop_live_tracking] using habs
        · right
          simp only [stop_old_beacons_go, hb, hr, if_true, if_false, Bool.false_eq_true,
            stop_live_tracking]
          exact go_preserves_absence _ now rest _ _ habs
      · have hmem : s ∈ tableDel tbl b.user_id := by
          simp only [tableDel, List.mem_filter, decide_eq_true_eq]
          exact ⟨hs, fun habs => hcollide habs.symm⟩
        by_cases hr : f b.user_id
        · left
          simpa [stop_old_beacons_go, hb, hr, stop_live_tracking] using hmem
        · simp only [stop_old_beacons_go, hb, hr, if_true, if_false, Bool.false_eq_true,
            stop_live_tracking]
          exact ih _ _ hmem
    · simp only [stop_old_beacons_go, hb, if_false]
      exact ih _ _ hs

/-- In an exception-free cycle the loop runs to completion: the table is
purged of every expired session and one "ended" notice is accumulated
per expired snapshot entry, in order. -/
theorem go_noraise (now : Int) (snap : List LiveLocationSession) (tbl : SessionTable)
    (acc : List (Int × String)) :
    stop_old_beacons_go (fun _ => false) now snap tbl acc =
      (snap.foldl (fun tb b => if now > b.end_sharing then tableDel tb b.user_id else tb) tbl,
       acc ++ (snap.filter fun b => decide (now > b.end_sharing)).map
          (fun b => (b.user_id, "ended")),
       false) := by
  induction snap generalizing tbl acc with
  | nil => simp [stop_old_beacons_go]
  | cons b rest ih =>
    by_cases hb : now > b.end_sharing <;>
      simp [stop_old_beacons_go, hb, ih, stop_live_tracking]

/-- Under the one-session-per-user invariant, the sessions of a given
user that are expired reduce to that user's single session when it is
expired. -/
theorem filter_one_per_user (now : Int) (t : SessionTable) (s : LiveLocationSession)
    (hs : s ∈ t) (hexp : now > s.end_sharing)
    (hnd : (t.map fun b => b.user_id).Nodup) :
    (t.filter fun b => (b.user_id == s.user_id) && decide (now > b.end_sharing)) = [s] := by
  induction t with
  | nil => cases hs
  | cons b rest ih =>
    rw [List.map_cons, List.nodup_cons] at hnd
    rcases List.mem_cons.mp hs with rfl | hs'
    · rw [List.filter_cons_of_pos (by simp [hexp])]
      rw [List.filter_eq_nil_iff.mpr ?_]
      · intro b hb
        simp only [Bool.and_eq_true, beq_iff_eq, decide_eq_true_eq, not_and]
        intro hid
        exact absurd (hid ▸ List.mem_map_of_mem (fun x => x.user_id) hb) hnd.1
    · have hbneq : (b.user_id == s.user_id) = false := by
        simp only [beq_eq_false_iff_ne, ne_eq]
        intro habs
        exact hnd.1 (habs ▸ List.mem_map_of_mem (fun x => x.user_id) hs')
      rw [List.filter_cons_of_neg (by simp [hbneq])]
      exact ih hs' hnd.2

/-- C8 counterexample: the "ended" notification of the sweeper is sent
with `chat_id=beacon.user_id`, not to the session's stored `chat_id`.
For a session with `user_id = 1` and `chat_id = 99` the cycle notifies
chat `1` and sends nothing to chat `99`, so the claim's "addressed to
the session's chat (the session's chatID)" fails. -/
theorem C8_counterexample :
    (stop_old_beacons_cycle (fun _ => false) 100 [⟨1, 99, "AA1AA", "7", "hi", 0, 50, -1⟩]).2.1 =
      [(1, "ended")] ∧
    ((99 : Int), "ended") ∉
      (stop_old_beacons_cycle (fun _ => false) 100 [⟨1, 99, "AA1AA", "7", "hi", 0, 50, -1⟩]).2.1 := by
  decide

/-- C8 (amended): in an exception-free sweeper cycle, every session
whose `end_sharing` lies strictly in the past at the start of the cycle
is removed from the table and exactly one "ended" notification is sent,
addressed to the session's owner (`chat_id=beacon.user_id`, not the
stored `chat_id`), within that cycle — i.e. within one 59-second sweep
period of expiry.  The table is assumed to satisfy its one-session-per-
user invariant. -/
theorem C8_sweeper_removes_and_notifies_once (now : Int) (t : SessionTable)
    (s : LiveLocationSession) (hs : s ∈ t) (hexp : now > s.end_sharing)
    (hnd : (t.map fun b => b.user_id).Nodup) :
    tableHas (stop_old_beacons_cycle (fun _ => false) now t).1 s.user_id = false ∧
    (stop_old_beacons_cycle (fun _ => false) now t).2.1.filter
        (fun n => n.1 == s.user_id) = [(s.user_id, "ended")] := by
  refine ⟨go_removes_expired now t t [] s hs hexp, ?_⟩
  rw [stop_old_beacons_cycle, go_noraise]
  simp only [List.nil_append, List.filter_map, List.filter_filter]
  rw [show (t.filter fun b =>
        ((fun n : Int × String => n.1 == s.user_id) ∘ fun b => (b.user_id, "ended")) b &&
          decide (now > b.end_sharing)) =
      (t.filter fun b => (b.user_id == s.user_id) && decide (now > b.end_sharing)) from rfl,
    filter_one_per_user now t s hs hexp hnd]
  rfl

/-- Witness for C8 at a concrete expired session. -/
theorem C8_sweeper_removes_and_notifies_once_witness :
    tableHas (stop_old_beacons_cycle (fun _ => false) 100
        [⟨1, 99, "AA1AA", "7", "hi", 0, 50, -1⟩, ⟨2, 2, "BB2BB", "9", "yo", 0, 500, -1⟩]).1 1 =
      false ∧
    (stop_old_beacons_cycle (fun _ => false) 100
        [⟨1, 99, "AA1AA", "7", "hi", 0, 50, -1⟩,
         ⟨2, 2, "BB2BB", "9", "yo", 0, 500, -1⟩]).2.1.filter
        (fun n => n.1 == 1) = [(1, "ended")] :=
  C8_sweeper_removes_and_notifies_once 100
    [⟨1, 99, "AA1AA", "7", "hi", 0, 50, -1⟩, ⟨2, 2, "BB2BB", "9", "yo", 0, 500, -1⟩]
    ⟨1, 99, "AA1AA", "7", "hi", 0, 50, -1⟩ (by decide) (by decide) (by decide)

/-- C3 counterexample: the sweeper's `try` wraps the whole `for` loop,
so an exception raised while notifying the first expired session aborts
the cycle: the second expired session is neither stopped nor notified in
that same cycle, contradicting the claim. -/
theorem C3_counterexample :
    (stop_old_beacons_cycle (fun uid => uid == 1) 100
        [⟨1, 1, "AA1AA", "7", "hi", 0, 50, -1⟩, ⟨2, 2, "BB2BB", "9", "yo", 0, 50, -1⟩]).1 =
      [⟨2, 2, "BB2BB", "9", "yo", 0, 50, -1⟩] ∧
    (stop_old_beacons_cycle (fun uid => uid == 1) 100
        [⟨1, 1, "AA1AA", "7", "hi", 0, 50, -1⟩,
         ⟨2, 2, "BB2BB", "9", "yo", 0, 50, -1⟩]).2.1 = [] ∧
    (stop_old_beacons_cycle (fun uid => uid == 1) 100
        [⟨1, 1, "AA1AA", "7", "hi", 0, 50, -1⟩,
         ⟨2, 2, "BB2BB", "9", "yo", 0, 50, -1⟩]).2.2 = true := by
  decide

/-- C3 (amended): an exception raised while processing one expired
session aborts the remaining iterations of that same cycle, but it does
not stop the sweep loop: the aborted cycle's leftover expired sessions
are still in the table and the next (exception-free) cycle stops
them. -/
theorem C3_exception_skips_cycle_but_loop_continues (f : Int → Bool) (now : Int)
    (t : SessionTable) (s : LiveLocationSession) (hs : s ∈ t) (hexp : now > s.end_sharing) :
    tableHas (stop_old_beacons_cycle (fun _ => false) now
        (stop_old_beacons_cycle f now t).1).1 s.user_id = false := by
  rcases go_mem_or_gone f now t t [] s hs with hmem | habs
  · exact go_removes_expired now _ _ [] s hmem hexp
  · exact go_preserves_absence _ now _ _ [] habs

/-- Witness for C3's amended statement: the session skipped by the
aborted first cycle is gone after the second cycle. -/
theorem C3_exception_skips_cycle_but_loop_continues_witness :
    tableHas (stop_old_beacons_cycle (fun _ => false) 100
        (stop_old_beacons_cycle (fun uid => uid == 1) 100
          [⟨1, 1, "AA1AA", "7", "hi", 0, 50, -1⟩,
           ⟨2, 2, "BB2BB", "9", "yo", 0, 50, -1⟩]).1).1 2 = false :=
  C3_exception_skips_cycle_but_loop_continues (fun uid => uid == 1) 100
    [⟨1, 1, "AA1AA", "7", "hi", 0, 50, -1⟩, ⟨2, 2, "BB2BB", "9", "yo", 0, 50, -1⟩]
    ⟨2, 2, "BB2BB", "9", "yo", 0, 50, -1⟩ (by decide) (by decide)

/-- The position packet assembled by `send_position`, written as one
flat concatenation. -/
theorem aprs_position_packet_flat (login : Option String) (d : UserParameters) (lat lon : ℚ) :
    aprs_position_packet login d lat lon =
      d.aprs_callsign ++ "-" ++ d.aprs_ssid ++ ">APRS,TCPIP*,qAC," ++ renderLogin login ++
        ":=" ++ (decimal_to_aprs lat lon).1 ++ "/" ++ (decimal_to_aprs lat lon).2 ++
        d.aprs_icon ++ d.aprs_comment := by
  have h1 : (">" : String) ++ "APRS,TCPIP*,qAC," = ">APRS,TCPIP*,qAC," := rfl
  have h2 : (":" : String) ++ "=" = ":=" := rfl
  simp only [aprs_position_packet, String.append_assoc, ← h1, ← h2]

/-- C6 counterexample: when no login call is configured (`APRS_USER`
unset), the connection itself logs in as `N0CALL`, but the packet's
`qAC` path field interpolates the unset Python `None`, producing the
literal text `None` rather than `N0CALL`. -/
theorem C6_counterexample :
    (send_position none true true true ⟨false, false, none⟩ ⟨1, "AA1AA", "hello", "7", "/", 60, "u"⟩
        (Rat.divInt 91 2) (Rat.divInt (-37) 4)).wire =
      [status_line, "AA1AA-7>APRS,TCPIP*,qAC,None:=4530.00N/00915.00W/hello"] ∧
    "AA1AA-7>APRS,TCPIP*,qAC,None:=4530.00N/00915.00W/hello" ≠
      "AA1AA-7>APRS,TCPIP*,qAC,N0CALL:=4530.00N/00915.00W/hello" := by
  decide

/-- C6 (amended): every line written by `send_position` is either the
connect-time status line or the position packet
`<CALL>-<SSID>>APRS,TCPIP*,qAC,<LOGIN>:=<LATTOKEN>/<LONTOKEN><ICON><COMMENT>`
built from the sender's profile and the codec's tokens, with no
timestamp field; `LOGIN` is the `aprs_user` global — the configured
login call when the call connects, but rendered as the literal `None`
when no login call is configured (not `N0CALL` as the claim states). -/
theorem C6_wire_packet_format (env : Option String) (connectOk statusOk packetOk : Bool)
    (st : AprsState) (d : UserParameters) (lat lon : ℚ) :
    ∀ pkt ∈ (send_position env connectOk statusOk packetOk st d lat lon).wire,
      pkt = status_line ∨
      pkt = d.aprs_callsign ++ "-" ++ d.aprs_ssid ++ ">APRS,TCPIP*,qAC," ++
        renderLogin (if st.connected then st.aprs_user else env) ++ ":=" ++
        (decimal_to_aprs lat lon).1 ++ "/" ++ (decimal_to_aprs lat lon).2 ++
        d.aprs_icon ++ d.aprs_comment := by
  intro pkt hpkt
  rw [← aprs_position_packet_flat]
  rcases st with ⟨conn, busy, user⟩
  cases conn <;> cases connectOk <;> cases statusOk <;> cases packetOk <;>
    simp only [send_position, Bool.not_true, Bool.not_false, if_true, if_false,
      Bool.false_eq_true, Bool.true_eq_false, ite_true, ite_false, List.mem_cons,
      List.mem_singleton, List.not_mem_nil] at hpkt <;>
    aesop

/-- Witness for C6: the packet written on a connected socket with a
configured login. -/
theorem C6_wire_packet_format_witness :
    (aprs_position_packet (some "IU2FRL") ⟨1, "AA1AA", "hello", "7", "/", 60, "u"⟩
        (Rat.divInt 91 2) (Rat.divInt (-37) 4)) = status_line ∨
    (aprs_position_packet (some "IU2FRL") ⟨1, "AA1AA", "hello", "7", "/", 60, "u"⟩
        (Rat.divInt 91 2) (Rat.divInt (-37) 4)) =
      "AA1AA" ++ "-" ++ "7" ++ ">APRS,TCPIP*,qAC," ++
        renderLogin (if (⟨true, false, some "IU2FRL"⟩ : AprsState).connected then
            (⟨true, false, some "IU2FRL"⟩ : AprsState).aprs_user else some "IU2FRL") ++ ":=" ++
        (decimal_to_aprs (Rat.divInt 91 2) (Rat.divInt (-37) 4)).1 ++ "/" ++
        (decimal_to_aprs (Rat.divInt 91 2) (Rat.divInt (-37) 4)).2 ++ "/" ++ "hello" :=
  C6_wire_packet_format (some "IU2FRL") true true true ⟨true, false, some "IU2FRL"⟩
    ⟨1, "AA1AA", "hello", "7", "/", 60, "u"⟩ (Rat.divInt 91 2) (Rat.divInt (-37) 4)
    (aprs_position_packet (some "IU2FRL") ⟨1, "AA1AA", "hello", "7", "/", 60, "u"⟩
      (Rat.divInt 91 2) (Rat.divInt (-37) 4)) (by decide)

/-! ## Helper lemmas about the coordinate codec -/

set_option maxRecDepth 4000 in
theorem pad2_spec : ∀ n : Nat, n < 100 →
    (padLeft 2 (decDigits n)).length = 2 ∧
      ((padLeft 2 (decDigits n)).all Char.isDigit) = true := by
  decide

set_option maxRecDepth 8000 in
theorem pad3_spec : ∀ n : Nat, n < 181 →
    (padLeft 3 (decDigits n)).length = 3 ∧
      ((padLeft 3 (decDigits n)).all Char.isDigit) = true := by
  decide

/-- `int(abs(x))` is the floor of the absolute value. -/
theorem truncAbs_eq (q : ℚ) : (truncAbs q : ℤ) = ⌊|q|⌋ := by
  unfold truncAbs
  rw [Rat.floor_def]
  exact Int.toNat_of_nonneg (by rw [← Rat.floor_def]; exact Int.floor_nonneg.mpr (abs_nonneg q))

/-- The `%05.2f` rendering of a minutes value in `[0, 60)` is two digit
characters, a dot, and two more digit characters. -/
theorem fmt0502_spec (m : ℚ) (h0 : 0 ≤ m) (h60 : m < 60) :
    ∃ a b c d : Char, fmt0502 m = [a, b, '.', c, d] ∧
      a.isDigit ∧ b.isDigit ∧ c.isDigit ∧ d.isDigit := by
  have hfl : (⌊m * 100 + 1/2⌋ : ℤ) < 6001 := by
    rw [Int.floor_lt]
    push_cast
    nlinarith
  have hfl0 : (0 : ℤ) ≤ ⌊m * 100 + 1/2⌋ := Int.floor_nonneg.mpr (by positivity)
  have hdiv : (⌊m * 100 + 1/2⌋).toNat / 100 < 100 := by omega
  have hmod : (⌊m * 100 + 1/2⌋).toNat % 100 < 100 := Nat.mod_lt _ (by norm_num)
  obtain ⟨hl1, ha1⟩ := pad2_spec _ hdiv
  obtain ⟨hl2, ha2⟩ := pad2_spec _ hmod
  obtain ⟨a, b, hab⟩ := List.length_eq_two.mp hl1
  obtain ⟨c, d, hcd⟩ := List.length_eq_two.mp hl2
  rw [hab] at ha1
  rw [hcd] at ha2
  simp only [List.all_cons, List.all_nil, Bool.and_true, Bool.and_eq_true] at ha1 ha2
  exact ⟨a, b, c, d, by rw [fmt0502, hab, hcd]; rfl, ha1.1, ha1.2, ha2.1, ha2.2⟩

theorem truncAbs_cast_le (q : ℚ) : (truncAbs q : ℚ) ≤ |q| := by
  have h := truncAbs_eq q
  have hle : ((⌊|q|⌋ : ℤ) : ℚ) ≤ |q| := Int.floor_le _
  calc (truncAbs q : ℚ) = ((truncAbs q : ℤ) : ℚ) := by push_cast; ring
    _ = ((⌊|q|⌋ : ℤ) : ℚ) := by rw [h]
    _ ≤ |q| := hle

theorem truncAbs_cast_gt (q : ℚ) : |q| < (truncAbs q : ℚ) + 1 := by
  have h := truncAbs_eq q
  calc |q| < ((⌊|q|⌋ : ℤ) : ℚ) + 1 := Int.lt_floor_add_one _
    _ = (truncAbs q : ℚ) + 1 := by rw [← h]; push_cast; ring

/-- The minutes value `(|x| - int(|x|)) * 60` lies in `[0, 60)`. -/
theorem minutes_bounds (q : ℚ) :
    0 ≤ (|q| - (truncAbs q : ℚ)) * 60 ∧ (|q| - (truncAbs q : ℚ)) * 60 < 60 := by
  have h1 := truncAbs_cast_le q
  have h2 := truncAbs_cast_gt q
  constructor <;> nlinarith

theorem truncAbs_lt_of_abs_le (q : ℚ) (B : ℕ) (h : |q| ≤ (B : ℚ)) : truncAbs q < B + 1 := by
  have he := truncAbs_eq q
  have : (⌊|q|⌋ : ℤ) ≤ (B : ℤ) := by
    have := Int.floor_le_floor h
    rwa [Int.floor_natCast] at this
  omega

theorem lat_token_matches (lat lon : ℚ) (h1 : -90 ≤ lat) (h2 : lat ≤ 90) :
    latPattern (decimal_to_aprs lat lon).1 = true := by
  have habs : |lat| ≤ (90 : ℚ) := abs_le.mpr ⟨h1, h2⟩
  have hdeg : truncAbs lat < 100 := by
    have := truncAbs_lt_of_abs_le lat 90 (by exact_mod_cast habs)
    omega
  obtain ⟨hm0, hm60⟩ := minutes_bounds lat
  obtain ⟨hl1, ha1⟩ := pad2_spec _ hdeg
  obtain ⟨a, b, hab⟩ := List.length_eq_two.mp hl1
  rw [hab] at ha1
  simp only [List.all_cons, List.all_nil, Bool.and_true, Bool.and_eq_true] at ha1
  obtain ⟨c, d, e, f, hm, hc, hd, he, hf⟩ := fmt0502_spec _ hm0 hm60
  simp only [decimal_to_aprs]
  rw [hab, hm]
  by_cases hdir : lat ≥ 0 <;>
    simp [latPattern, hdir, ha1.1, ha1.2, hc, hd, he, hf, String.toList]

theorem lon_token_matches (lat lon : ℚ) (h1 : -180 ≤ lon) (h2 : lon ≤ 180) :
    lonPattern (decimal_to_aprs lat lon).2 = true := by
  have habs : |lon| ≤ (180 : ℚ) := abs_le.mpr ⟨h1, h2⟩
  have hdeg : truncAbs lon < 181 := truncAbs_lt_of_abs_le lon 180 (by exact_mod_cast habs)
  obtain ⟨hm0, hm60⟩ := minutes_bounds lon
  obtain ⟨hl1, ha1⟩ := pad3_spec _ hdeg
  obtain ⟨a, b, c, habc⟩ := List.length_eq_three.mp hl1
  rw [habc] at ha1
  simp only [List.all_cons, List.all_nil, Bool.and_true, Bool.and_eq_true] at ha1
  obtain ⟨d, e, f, g, hm, hd, he, hf, hg⟩ := fmt0502_spec _ hm0 hm60
  simp only [decimal_to_aprs]
  rw [habc, hm]
  by_cases hdir : lon ≥ 0 <;>
    simp [lonPattern, hdir, ha1.1, ha1.2.1, ha1.2.2, hd, he, hf, hg, String.toList]

/-- The hemisphere letter is the last character of each token and is
chosen by the sign of the input. -/
theorem hemisphere_chars (lat lon : ℚ) :
    (decimal_to_aprs lat lon).1.toList.getLast? = some (if lat ≥ 0 then 'N' else 'S') ∧
    (decimal_to_aprs lat lon).2.toList.getLast? = some (if lon ≥ 0 then 'E' else 'W') := by
  constructor <;>
    simp only [decimal_to_aprs, String.toList] <;>
    exact List.getLast?_concat _

/-- C5: for geographic coordinates, the codec's latitude token matches
`^\d{2}\d{2}\.\d{2}[NS]$` and its longitude token matches
`^\d{3}\d{2}\.\d{2}[EW]$`, the hemisphere letter being `N`/`E` exactly
for nonnegative inputs; in particular
`decimal_to_aprs(45.5, -9.25) = ("4530.00N", "00915.00W")`. -/
theorem C5_codec_token_format (lat lon : ℚ) (hlat₁ : -90 ≤ lat) (hlat₂ : lat ≤ 90)
    (hlon₁ : -180 ≤ lon) (hlon₂ : lon ≤ 180) :
    latPattern (decimal_to_aprs lat lon).1 = true ∧
    lonPattern (decimal_to_aprs lat lon).2 = true ∧
    (decimal_to_aprs lat lon).1.toList.getLast? = some (if lat ≥ 0 then 'N' else 'S') ∧
    (decimal_to_aprs lat lon).2.toList.getLast? = some (if lon ≥ 0 then 'E' else 'W') ∧
    decimal_to_aprs (Rat.divInt 91 2) (Rat.divInt (-37) 4) = ("4530.00N", "00915.00W") := by
  obtain ⟨hN, hE⟩ := hemisphere_chars lat lon
  exact ⟨lat_token_matches lat lon hlat₁ hlat₂, lon_token_matches lat lon hlon₁ hlon₂,
    hN, hE, by decide⟩

/-- Witness for C5 at `lat = 45.5`, `lon = -9.25`. -/
theorem C5_codec_token_format_witness :
    latPattern (decimal_to_aprs (Rat.divInt 91 2) (Rat.divInt (-37) 4)).1 = true ∧
    lonPattern (decimal_to_aprs (Rat.divInt 91 2) (Rat.divInt (-37) 4)).2 = true ∧
    (decimal_to_aprs (Rat.divInt 91 2) (Rat.divInt (-37) 4)).1.toList.getLast? =
      some (if (Rat.divInt 91 2 : ℚ) ≥ 0 then 'N' else 'S') ∧
    (decimal_to_aprs (Rat.divInt 91 2) (Rat.divInt (-37) 4)).2.toList.getLast? =
      some (if (Rat.divInt (-37) 4 : ℚ) ≥ 0 then 'E' else 'W') ∧
    decimal_to_aprs (Rat.divInt 91 2) (Rat.divInt (-37) 4) = ("4530.00N", "00915.00W") :=
  C5_codec_token_format (Rat.divInt 91 2) (Rat.divInt (-37) 4) (by decide) (by decide)
    (by decide) (by decide)

end AprsBot
